import Mathlib

/-!
Verification of `QTShortcut.c` (qtshortcut.win): a shallow embedding of
`QTShortCut_CreateShortcutMovieFile` (the capability gate and the manual
atom builder, lines 71-159) and `QTShortCut_WriteHandleToFile` (the file
writer, lines 170-227), with theorems settling the specification's claims.

Bytes are modelled as `Nat` (values < 256 where it matters), buffers as
`List Nat`, 32-bit big-endian stores as explicit division/modulus by powers
of 256 (so `EndianU32_NtoB` truncation to 32 bits is the `% 4294967296`
that `be32` performs digit by digit).  Filesystem state is the contents of
the single target file; each Toolbox call that can fail for an
environment-dependent reason (disk error, locked file, ...) consults a
fault oracle `Stage → Option Int`, where `some e` means the call failed
with OSErr `e`; deterministic errors the code itself relies on (`fnfErr`
from deleting an absent file, `dupFNErr` from creating over an existing
file) are modelled explicitly.  Memory allocation is assumed to succeed:
no claim concerns allocation failure.  The Windows build is modelled, so
the `TARGET_OS_MAC`-only volume-flush steps (lines 214-221) are absent.
-/

namespace QTShortcut

/-- OSErr `noErr` (success). -/
def noErr : Int := 0

/-- OSErr `paramErr` (-50), the initial value of `myErr` in
`QTShortCut_WriteHandleToFile`, returned on a NULL or empty handle. -/
def paramErr : Int := -50

/-- OSErr `fnfErr` (-43), file not found: what `FSpDelete` reports when the
target does not exist. -/
def fnfErr : Int := -43

/-- OSErr `dupFNErr` (-48), duplicate filename: what `FSpCreate` reports
when the target already exists. -/
def dupFNErr : Int := -48

/-- OSErr `ioErr` (-36), generic I/O failure. -/
def ioErr : Int := -36

/-- Atom type tag `MovieAID` ('moov'), from the platform movie-format
headers.  The claims treat the three atom tags symbolically; only their
values as opaque 4-byte constants matter here. -/
def MovieAID : Nat := 0x6D6F6F76

/-- Atom type tag `MovieDataRefAliasAID`, from the platform movie-format
headers (opaque 4-byte constant). -/
def MovieDataRefAliasAID : Nat := 0x6D647261

/-- Atom type tag `DataRefAID`, from the platform movie-format headers
(opaque 4-byte constant). -/
def DataRefAID : Nat := 0x64726566

/-- The 'alis' data-reference type tag used in the spec's empty-payload
example. -/
def alisTag : Nat := 0x616C6973

/-- Source constant `myAtomHeaderSize = 2 * sizeof(long)` (line 107): 8 bytes. -/
def atomHeaderSize : Nat := 8

/-- Big-endian storage of a 32-bit value (`EndianU32_NtoB` followed by a
4-byte store): the four base-256 digits of `n % 4294967296`, most
significant first. -/
def be32 (n : Nat) : List Nat :=
  n / 16777216 % 256 :: n / 65536 % 256 :: n / 256 % 256 :: n % 256 :: []

/-- Read a 32-bit big-endian value at byte offset `off` of a buffer (the
parsing direction used by the spec's round-trip property; 0 when the
buffer is too short). -/
def readBE32 (buf : List Nat) (off : Nat) : Nat :=
  match buf.drop off with
  | a :: b :: c :: d :: _ => ((a * 256 + b) * 256 + c) * 256 + d
  | _ => 0

/-- The data block `myData` (lines 106-115): the payload's type tag stored
big-endian, followed by the raw payload bytes. -/
def dataBlock (tag : Nat) (bytes : List Nat) : List Nat :=
  be32 tag ++ bytes

/-- The manual atom builder (lines 106-138): the three nested atom headers
(size and type fields, lines 130-135) with `myData` concatenated at the
end (`PtrAndHand`, line 138).  Each size is
`k * myAtomHeaderSize + GetPtrSize(myData)` for `k = 3, 2, 1`, stored
through `EndianU32_NtoB`, i.e. modulo 2^32. -/
def buildMoovAtom (tag : Nat) (bytes : List Nat) : List Nat :=
  let myData := dataBlock tag bytes
  be32 (3 * atomHeaderSize + myData.length) ++ be32 MovieAID ++
  be32 (2 * atomHeaderSize + myData.length) ++ be32 MovieDataRefAliasAID ++
  be32 (1 * atomHeaderSize + myData.length) ++ be32 DataRefAID ++
  myData

/-- The filesystem steps of `QTShortCut_WriteHandleToFile` (lines 186-212):
`FSpDelete`, `FSpCreate`, `FSpOpenDF`, `SetFPos(fsFromStart, 0)`, `FSWrite`,
`SetFPos(fsFromStart, mySize)`, `SetEOF`, `FSClose`.  The Mac-only volume
flush (lines 214-221) is compiled out on Windows. -/
inductive Stage where
  | remove
  | create
  | openDF
  | setPosStart
  | write
  | setPosEnd
  | setEOF
  | close
deriving DecidableEq

/-- Filesystem state: the contents of the target file (`none` = no file
exists at the target's FSSpec). -/
structure FS where
  file : Option (List Nat)
deriving DecidableEq

/-- A Memory Manager handle: its byte contents and whether it is locked
(`HLock`/`HUnlock`). -/
structure HState where
  contents : List Nat
  locked : Bool
deriving DecidableEq

/-- Model of `HLock` (line 184). -/
def hLock (h : HState) : HState := { h with locked := true }

/-- Model of `HUnlock` (line 224). -/
def hUnlock (h : HState) : HState := { h with locked := false }

/-- A fault oracle: for each filesystem stage, `some e` means the
environment makes that call fail with OSErr `e` (failures carry a nonzero
code), `none` means the call behaves normally. -/
def Oracle : Type := Stage → Option Int

/-- Model of `FSpDelete` (line 188): reports `fnfErr` when the target does not
exist, otherwise removes it; an environment fault leaves the file in
place. -/
def fspDelete (orc : Oracle) (fs : FS) : Int × FS :=
  match orc Stage.remove with
  | some e => (e, fs)
  | none =>
    match fs.file with
    | none => (fnfErr, fs)
    | some _ => (noErr, ⟨none⟩)

/-- Model of `FSpCreate` (line 191): reports `dupFNErr` when the target already
exists, otherwise creates it empty. -/
def fspCreate (orc : Oracle) (fs : FS) : Int × FS :=
  match orc Stage.create with
  | some e => (e, fs)
  | none =>
    match fs.file with
    | some _ => (dupFNErr, fs)
    | none => (noErr, ⟨some []⟩)

/-- Model of `FSpOpenDF` (line 194): fails with `fnfErr` when the target does not
exist; on success the file mark is at 0. -/
def fspOpenDF (orc : Oracle) (fs : FS) : Int :=
  match orc Stage.openDF with
  | some e => e
  | none =>
    match fs.file with
    | none => fnfErr
    | some _ => noErr

/-- Model of `SetFPos(myRefNum, fsFromStart, n)` (lines 198 and 204): only an
environment fault can fail it here; it repositions the file mark. -/
def setFPos (orc : Oracle) (s : Stage) : Int :=
  (orc s).getD noErr

/-- Model of `FSWrite(myRefNum, &mySize, *theHandle)` (line 201): writes the
handle's bytes at the current file mark. -/
def fsWrite (orc : Oracle) (data : List Nat) (fs : FS) (fpos : Nat) : Int × FS :=
  match orc Stage.write with
  | some e => (e, fs)
  | none =>
    match fs.file with
    | none => (ioErr, fs)
    | some f => (noErr, ⟨some (f.take fpos ++ data ++ f.drop (fpos + data.length))⟩)

/-- Model of `SetEOF(myRefNum, mySize)` (line 208): truncates or zero-extends the
file to exactly `n` bytes. -/
def setEOF (orc : Oracle) (n : Nat) (fs : FS) : Int × FS :=
  match orc Stage.setEOF with
  | some e => (e, fs)
  | none =>
    match fs.file with
    | none => (ioErr, fs)
    | some f => (noErr, ⟨some (f.take n ++ List.replicate (n - f.length) 0)⟩)

/-- Model of `FSClose` (line 212): only an environment fault can fail it here. -/
def fsClose (orc : Oracle) : Int :=
  (orc Stage.close).getD noErr

/-- Outcome of the writer: the returned `OSErr`, the filesystem state, the
final handle state, and the filesystem stages that were actually invoked,
in order. -/
structure WResult where
  err : Int
  fs : FS
  hdl : Option HState
  performed : List Stage
deriving DecidableEq

/-- Model of `QTShortCut_WriteHandleToFile` (lines 170-227).  Mirrors the source's
control flow: `paramErr` bail-out on a NULL handle (line 177) or an empty
handle (line 181) before any filesystem call; `HLock`; `FSpDelete` whose
result is unconditionally overwritten by `FSpCreate`'s (lines 188-191);
then each subsequent call guarded by `if (myErr == noErr)`; `HUnlock` at
`bail`. -/
def writeHandleToFile (orc : Oracle) (theHandle : Option HState) (fs0 : FS) : WResult :=
  match theHandle with
  | none => ⟨paramErr, fs0, none, []⟩
  | some h0 =>
    if h0.contents.length = 0 then ⟨paramErr, fs0, some (hUnlock h0), []⟩
    else
      let hOut := some (hUnlock (hLock h0))
      let data := (hLock h0).contents
      let fs1 := (fspDelete orc fs0).2
      let rC := fspCreate orc fs1
      if rC.1 ≠ noErr then
        ⟨rC.1, rC.2, hOut, [Stage.remove, Stage.create]⟩
      else
      let eO := fspOpenDF orc rC.2
      if eO ≠ noErr then
        ⟨eO, rC.2, hOut, [Stage.remove, Stage.create, Stage.openDF]⟩
      else
      let eP := setFPos orc Stage.setPosStart
      if eP ≠ noErr then
        ⟨eP, rC.2, hOut, [Stage.remove, Stage.create, Stage.openDF, Stage.setPosStart]⟩
      else
      let rW := fsWrite orc data rC.2 0
      if rW.1 ≠ noErr then
        ⟨rW.1, rW.2, hOut,
          [Stage.remove, Stage.create, Stage.openDF, Stage.setPosStart, Stage.write]⟩
      else
      let eP2 := setFPos orc Stage.setPosEnd
      if eP2 ≠ noErr then
        ⟨eP2, rW.2, hOut,
          [Stage.remove, Stage.create, Stage.openDF, Stage.setPosStart, Stage.write,
            Stage.setPosEnd]⟩
      else
      let rE := setEOF orc data.length rW.2
      if rE.1 ≠ noErr then
        ⟨rE.1, rE.2, hOut,
          [Stage.remove, Stage.create, Stage.openDF, Stage.setPosStart, Stage.write,
            Stage.setPosEnd, Stage.setEOF]⟩
      else
      let eC := fsClose orc
      ⟨eC, rE.2, hOut,
        [Stage.remove, Stage.create, Stage.openDF, Stage.setPosStart, Stage.write,
          Stage.setPosEnd, Stage.setEOF, Stage.close]⟩

/-- Outcome of `Gestalt(gestaltQuickTime, &myVersion)` (line 76): either
the packed QuickTime version, or an `OSErr`. -/
inductive GestaltOutcome where
  | ok (version : Nat)
  | fail (e : Int)
deriving DecidableEq

/-- Outcome of `QTShortCut_CreateShortcutMovieFile`: the returned `OSErr`,
the filesystem state, whether the native `CreateShortcutMovieFile` path
was taken, and the writer stages performed on the manual path. -/
structure CSResult where
  err : Int
  fs : FS
  usedNative : Bool
  performed : List Stage
deriving DecidableEq

/-- Model of `QTShortCut_CreateShortcutMovieFile` (lines 71-159).  `native` is the
opaque QuickTime 4.0 `CreateShortcutMovieFile` entry point (external
collaborator).  On Gestalt failure the function bails out at once
(lines 77-78).  The version gate is `((myVersion >> 16) & 0xffff) >= 0x0400`
(line 80).  On the manual path the atom buffer is built and handed to
`QTShortCut_WriteHandleToFile` (lines 106-148); allocation always succeeds
in this embedding. -/
def createShortcutMovieFile (native : FS → Int × FS) (g : GestaltOutcome)
    (orc : Oracle) (tag : Nat) (bytes : List Nat) (fs0 : FS) : CSResult :=
  match g with
  | GestaltOutcome.fail e => ⟨e, fs0, false, []⟩
  | GestaltOutcome.ok v =>
    if (v / 65536) % 65536 ≥ 0x0400 then
      let r := native fs0
      ⟨r.1, r.2, true, []⟩
    else
      let moov := buildMoovAtom tag bytes
      let r := writeHandleToFile orc (some ⟨moov, false⟩) fs0
      ⟨r.err, r.fs, false, r.performed⟩


/-- All eight writer stages in invocation order (the success trace of the
writer on Windows). -/
def allStages : List Stage :=
  [Stage.remove, Stage.create, Stage.openDF, Stage.setPosStart, Stage.write,
    Stage.setPosEnd, Stage.setEOF, Stage.close]

lemma be32_length (n : Nat) : (be32 n).length = 4 := rfl

lemma dataBlock_length (tag : Nat) (bytes : List Nat) :
    (dataBlock tag bytes).length = 4 + bytes.length := by
  simp [dataBlock, be32]
  omega

lemma buildMoovAtom_length (tag : Nat) (bytes : List Nat) :
    (buildMoovAtom tag bytes).length = 28 + bytes.length := by
  simp [buildMoovAtom, dataBlock, be32]
  omega

/-- Normal form of the built buffer: the three headers with their numeric
sizes, the payload tag and the payload bytes. -/
lemma buildMoovAtom_eq (tag : Nat) (bytes : List Nat) :
    buildMoovAtom tag bytes =
      be32 (24 + bytes.length + 4) ++ be32 MovieAID ++
      be32 (16 + bytes.length + 4) ++ be32 MovieDataRefAliasAID ++
      be32 (8 + bytes.length + 4) ++ be32 DataRefAID ++
      be32 tag ++ bytes := by
  have h3 : 3 * atomHeaderSize + (dataBlock tag bytes).length
      = 24 + bytes.length + 4 := by
    rw [dataBlock_length]; simp [atomHeaderSize]; omega
  have h2 : 2 * atomHeaderSize + (dataBlock tag bytes).length
      = 16 + bytes.length + 4 := by
    rw [dataBlock_length]; simp [atomHeaderSize]; omega
  have h1 : 1 * atomHeaderSize + (dataBlock tag bytes).length
      = 8 + bytes.length + 4 := by
    rw [dataBlock_length]; simp [atomHeaderSize]; omega
  show be32 (3 * atomHeaderSize + (dataBlock tag bytes).length) ++ be32 MovieAID ++
      be32 (2 * atomHeaderSize + (dataBlock tag bytes).length) ++ be32 MovieDataRefAliasAID ++
      be32 (1 * atomHeaderSize + (dataBlock tag bytes).length) ++ be32 DataRefAID ++
      dataBlock tag bytes = _
  rw [h3, h2, h1]
  simp [dataBlock, List.append_assoc]

lemma readBE32_be32_append (n : Nat) (l : List Nat) :
    readBE32 (be32 n ++ l) 0 = n % 4294967296 := by
  simp only [be32, List.cons_append, List.nil_append, readBE32, List.drop]
  omega

lemma buildMoovAtom_drop8 (tag : Nat) (bytes : List Nat) :
    (buildMoovAtom tag bytes).drop 8 =
      be32 (16 + bytes.length + 4) ++ be32 MovieDataRefAliasAID ++
      be32 (8 + bytes.length + 4) ++ be32 DataRefAID ++ be32 tag ++ bytes := by
  rw [buildMoovAtom_eq]
  simp only [be32, List.cons_append, List.nil_append]
  rfl

lemma buildMoovAtom_drop16 (tag : Nat) (bytes : List Nat) :
    (buildMoovAtom tag bytes).drop 16 =
      be32 (8 + bytes.length + 4) ++ be32 DataRefAID ++ be32 tag ++ bytes := by
  rw [buildMoovAtom_eq]
  simp only [be32, List.cons_append, List.nil_append]
  rfl

lemma buildMoovAtom_drop24 (tag : Nat) (bytes : List Nat) :
    (buildMoovAtom tag bytes).drop 24 = be32 tag ++ bytes := by
  rw [buildMoovAtom_eq]
  simp only [be32, List.cons_append, List.nil_append]
  rfl

lemma readBE32_buildMoovAtom_0 (tag : Nat) (bytes : List Nat) :
    readBE32 (buildMoovAtom tag bytes) 0 = (28 + bytes.length) % 4294967296 := by
  rw [buildMoovAtom_eq]
  have h : 24 + bytes.length + 4 = 28 + bytes.length := by omega
  rw [h, List.append_assoc, List.append_assoc, List.append_assoc,
    List.append_assoc, List.append_assoc, List.append_assoc]
  exact readBE32_be32_append _ _

lemma readBE32_buildMoovAtom_8 (tag : Nat) (bytes : List Nat) :
    readBE32 (buildMoovAtom tag bytes) 8 = (20 + bytes.length) % 4294967296 := by
  have hdrop : readBE32 (buildMoovAtom tag bytes) 8
      = readBE32 ((buildMoovAtom tag bytes).drop 8) 0 := rfl
  rw [hdrop, buildMoovAtom_drop8]
  have h : 16 + bytes.length + 4 = 20 + bytes.length := by omega
  rw [h, List.append_assoc, List.append_assoc, List.append_assoc, List.append_assoc]
  exact readBE32_be32_append _ _

lemma readBE32_buildMoovAtom_16 (tag : Nat) (bytes : List Nat) :
    readBE32 (buildMoovAtom tag bytes) 16 = (12 + bytes.length) % 4294967296 := by
  have hdrop : readBE32 (buildMoovAtom tag bytes) 16
      = readBE32 ((buildMoovAtom tag bytes).drop 16) 0 := rfl
  rw [hdrop, buildMoovAtom_drop16]
  have h : 8 + bytes.length + 4 = 12 + bytes.length := by omega
  rw [h, List.append_assoc, List.append_assoc]
  exact readBE32_be32_append _ _

lemma fspDelete_noFault (orc : Oracle) (fs : FS)
    (hr : orc Stage.remove = none) : (fspDelete orc fs).2 = ⟨none⟩ := by
  rcases fs with ⟨_ | f⟩ <;> simp [fspDelete, hr]

/-- When every filesystem call behaves normally, the writer runs all eight
stages, succeeds, and leaves the target holding exactly the handle's
bytes. -/
lemma writeHandle_all_ok (orc : Oracle) (h : HState) (fs : FS)
    (h0 : ¬ h.contents.length = 0) (hA : ∀ s, orc s = none) :
    writeHandleToFile orc (some h) fs =
      ⟨noErr, ⟨some h.contents⟩, some ⟨h.contents, false⟩, allStages⟩ := by
  rcases fs with ⟨_ | f⟩ <;>
    simp [writeHandleToFile, h0, fspDelete, fspCreate, fspOpenDF, setFPos, fsWrite,
      setEOF, fsClose, hA, noErr, fnfErr, dupFNErr, hLock, hUnlock, allStages,
      List.take_length, Nat.sub_self, List.replicate, List.append_nil]

/-- Whenever the writer reports success, the target file holds exactly the
handle's bytes (faults carry nonzero OSErr codes). -/
lemma writeHandle_success_file (orc : Oracle) (h : HState) (fs : FS)
    (horc : ∀ s e, orc s = some e → e ≠ 0)
    (hsucc : (writeHandleToFile orc (some h) fs).err = noErr) :
    (writeHandleToFile orc (some h) fs).fs = ⟨some h.contents⟩ := by
  by_cases h0 : h.contents.length = 0
  · exact absurd hsucc (by simp [writeHandleToFile, h0, paramErr, noErr])
  have hfs1 : ((fspDelete orc fs).2.file = none) ∨
      ((fspDelete orc fs).2 = fs ∧ ∃ f, fs.file = some f) := by
    unfold fspDelete
    rcases hr : orc Stage.remove with _ | e₁
    · rcases hf : fs.file with _ | f
      · exact Or.inl (by simp [hf])
      · exact Or.inl (by simp [hf])
    · rcases hf : fs.file with _ | f
      · exact Or.inl (by simp [hf])
      · exact Or.inr ⟨by simp, f, rfl⟩
  rcases hc : orc Stage.create with _ | e₂
  rotate_left
  · exact absurd hsucc
      (by simp [writeHandleToFile, h0, fspCreate, hc, noErr, horc _ _ hc])
  rcases hfs1 with hfs1 | ⟨hfs1, f, hf⟩
  rotate_left
  · -- removal faulted with the target still present, so FSpCreate fails
    exact absurd hsucc
      (by simp [writeHandleToFile, h0, fspCreate, hc, hfs1, hf, noErr, dupFNErr])
  rcases ho : orc Stage.openDF with _ | e₃
  rotate_left
  · exact absurd hsucc
      (by simp [writeHandleToFile, h0, fspCreate, hc, hfs1, fspOpenDF, ho,
        noErr, horc _ _ ho])
  rcases hp : orc Stage.setPosStart with _ | e₄
  rotate_left
  · exact absurd hsucc
      (by simp [writeHandleToFile, h0, fspCreate, hc, hfs1, fspOpenDF, ho,
        setFPos, hp, noErr, horc _ _ hp])
  rcases hw : orc Stage.write with _ | e₅
  rotate_left
  · exact absurd hsucc
      (by simp [writeHandleToFile, h0, fspCreate, hc, hfs1, fspOpenDF, ho,
        setFPos, hp, fsWrite, hw, noErr, horc _ _ hw])
  rcases hp2 : orc Stage.setPosEnd with _ | e₆
  rotate_left
  · exact absurd hsucc
      (by simp [writeHandleToFile, h0, fspCreate, hc, hfs1, fspOpenDF, ho,
        setFPos, hp, fsWrite, hw, hp2, noErr, horc _ _ hp2])
  rcases he : orc Stage.setEOF with _ | e₇
  rotate_left
  · exact absurd hsucc
      (by simp [writeHandleToFile, h0, fspCreate, hc, hfs1, fspOpenDF, ho,
        setFPos, hp, fsWrite, hw, hp2, setEOF, he, noErr, horc _ _ he])
  simp [writeHandleToFile, h0, fspCreate, hc, hfs1, fspOpenDF, ho,
    setFPos, hp, fsWrite, hw, hp2, setEOF, he, fsClose, noErr, hLock, hUnlock,
    List.take_length, Nat.sub_self, List.replicate, List.append_nil]

/-- On a nonempty handle the writer always invokes `FSpDelete` and then
`FSpCreate`, whatever the oracle and the prior state: every exit trace
starts with those two stages. -/
lemma writeHandle_performed_shape (orc : Oracle) (h : HState) (fs : FS)
    (h0 : ¬ h.contents.length = 0) :
    ∃ rest, (writeHandleToFile orc (some h) fs).performed
      = Stage.remove :: Stage.create :: rest := by
  simp only [writeHandleToFile]
  rw [if_neg h0]
  repeat' split
  all_goals exact ⟨_, rfl⟩

end QTShortcut

namespace QTShortcut

/-- Claim C1: for every payload `(tag, bytes)` whose outer atom size fits
the 32-bit size field (true of every handle the source can hold), the
manual atom builder produces exactly the buffer
`[be32 (24+N+4)]["MovieAID"][be32 (16+N+4)]["MovieDataRefAliasAID"]
[be32 (8+N+4)]["DataRefAID"][be32 tag][bytes]`, and parsing the three
nested headers recovers `ContainerAtom.size = len(buffer)`,
`AliasAtom.size = ContainerAtom.size - 8`,
`DataRefAtom.size = AliasAtom.size - 8`, with the trailing `4 + N` bytes
equal to `tag ++ bytes`. -/
theorem C1_atom_builder_layout (tag : Nat) (bytes : List Nat)
    (hN : 28 + bytes.length < 4294967296) :
    (buildMoovAtom tag bytes).length = 28 + bytes.length ∧
    buildMoovAtom tag bytes =
      be32 (24 + bytes.length + 4) ++ be32 MovieAID ++
      be32 (16 + bytes.length + 4) ++ be32 MovieDataRefAliasAID ++
      be32 (8 + bytes.length + 4) ++ be32 DataRefAID ++
      be32 tag ++ bytes ∧
    readBE32 (buildMoovAtom tag bytes) 0 = (buildMoovAtom tag bytes).length ∧
    readBE32 (buildMoovAtom tag bytes) 8 = readBE32 (buildMoovAtom tag bytes) 0 - 8 ∧
    readBE32 (buildMoovAtom tag bytes) 16 = readBE32 (buildMoovAtom tag bytes) 8 - 8 ∧
    (buildMoovAtom tag bytes).drop 24 = be32 tag ++ bytes := by
  refine ⟨buildMoovAtom_length tag bytes, buildMoovAtom_eq tag bytes, ?_, ?_, ?_,
    buildMoovAtom_drop24 tag bytes⟩
  · rw [readBE32_buildMoovAtom_0, buildMoovAtom_length]
    omega
  · rw [readBE32_buildMoovAtom_8, readBE32_buildMoovAtom_0]
    omega
  · rw [readBE32_buildMoovAtom_16, readBE32_buildMoovAtom_8]
    omega

theorem C1_atom_builder_layout_witness :
    (buildMoovAtom 1953719668 [171, 205]).length = 30 ∧
    readBE32 (buildMoovAtom 1953719668 [171, 205]) 0 = 30 ∧
    readBE32 (buildMoovAtom 1953719668 [171, 205]) 8 = 22 := by
  obtain ⟨h1, _, h3, h4, _, _⟩ :=
    C1_atom_builder_layout 1953719668 [171, 205] (by norm_num)
  refine ⟨by simpa using h1, ?_, ?_⟩
  · rw [h3]; simpa using h1
  · rw [h4, h3]
    have h30 : (buildMoovAtom 1953719668 [171, 205]).length = 30 := by simpa using h1
    rw [h30]

end QTShortcut

namespace QTShortcut

/-- Claim C3 counterexample: for the concrete payload of 4294967269 zero
bytes (tag 'alis'), `28 + N = 2^32 + 1` exceeds the 32-bit size field, yet
the builder produces a buffer whose outer size field silently wrapped to
1: it rejects nothing and emits a wrapped size, contradicting the claimed
explicit `UnsupportedPayload` failure. -/
theorem C3_overflow_counterexample :
    (buildMoovAtom alisTag (List.replicate 4294967269 0)).length = 4294967297 ∧
    readBE32 (buildMoovAtom alisTag (List.replicate 4294967269 0)) 0 = 1 ∧
    readBE32 (buildMoovAtom alisTag (List.replicate 4294967269 0)) 0
      ≠ (buildMoovAtom alisTag (List.replicate 4294967269 0)).length := by
  have hlen := buildMoovAtom_length alisTag (List.replicate 4294967269 0)
  rw [List.length_replicate] at hlen
  have h0 := readBE32_buildMoovAtom_0 alisTag (List.replicate 4294967269 0)
  rw [List.length_replicate] at h0
  refine ⟨by omega, by omega, by omega⟩

/-- Claim C3 amended: the builder never fails and performs no overflow
check; every size field is stored modulo 2^32 (the `EndianU32_NtoB`
truncation), so a payload with `28 + N ≥ 2^32` yields silently wrapped
size fields rather than an `UnsupportedPayload` error. -/
theorem C3_overflow_amended (tag : Nat) (bytes : List Nat) :
    (buildMoovAtom tag bytes).length = 28 + bytes.length ∧
    readBE32 (buildMoovAtom tag bytes) 0 = (28 + bytes.length) % 4294967296 ∧
    readBE32 (buildMoovAtom tag bytes) 8 = (20 + bytes.length) % 4294967296 ∧
    readBE32 (buildMoovAtom tag bytes) 16 = (12 + bytes.length) % 4294967296 :=
  ⟨buildMoovAtom_length tag bytes, readBE32_buildMoovAtom_0 tag bytes,
    readBE32_buildMoovAtom_8 tag bytes, readBE32_buildMoovAtom_16 tag bytes⟩

/-- Claim C5: the native path is taken exactly when the upper 16 bits of
the queried version are at least 0x0400 (QuickTime 4.0); version
0x03FF0000 takes the manual path, 0x04000000 the native path, and on the
native path no writer stage is ever invoked. -/
theorem C5_capability_gate (native : FS → Int × FS) (orc : Oracle)
    (tag : Nat) (bytes : List Nat) (fs : FS) :
    (∀ v, (createShortcutMovieFile native (GestaltOutcome.ok v) orc tag bytes fs).usedNative
        = true ↔ 0x0400 ≤ (v / 65536) % 65536) ∧
    (createShortcutMovieFile native (GestaltOutcome.ok 0x03FF0000) orc tag bytes
      fs).usedNative = false ∧
    (createShortcutMovieFile native (GestaltOutcome.ok 0x04000000) orc tag bytes
      fs).usedNative = true ∧
    (createShortcutMovieFile native (GestaltOutcome.ok 0x04000000) orc tag bytes
      fs).performed = [] := by
  refine ⟨?_, ?_, ?_, ?_⟩
  · intro v
    by_cases hv : 0x0400 ≤ (v / 65536) % 65536 <;>
      simp [createShortcutMovieFile, ge_iff_le, hv]
  · have hv : ¬ (0x0400 : Nat) ≤ (0x03FF0000 / 65536) % 65536 := by norm_num
    simp [createShortcutMovieFile, ge_iff_le, hv]
  · have hv : (0x0400 : Nat) ≤ (0x04000000 / 65536) % 65536 := by norm_num
    simp [createShortcutMovieFile, ge_iff_le, hv]
  · have hv : (0x0400 : Nat) ≤ (0x04000000 / 65536) % 65536 := by norm_num
    simp [createShortcutMovieFile, ge_iff_le, hv]

/-- Claim C6: the empty payload with tag 'alis' yields exactly the 28-byte
buffer `[0x1C]["MovieAID"][0x14]["MovieDataRefAliasAID"][0x0C]
["DataRefAID"]["alis"]` with big-endian size fields, and this empty
payload is valid input: the writer accepts the resulting 28-byte handle
without error. -/
theorem C6_empty_payload :
    buildMoovAtom alisTag [] =
      be32 0x1C ++ be32 MovieAID ++ be32 0x14 ++ be32 MovieDataRefAliasAID ++
      be32 0x0C ++ be32 DataRefAID ++ be32 alisTag ∧
    (buildMoovAtom alisTag []).length = 28 ∧
    (writeHandleToFile (fun _ => none) (some ⟨buildMoovAtom alisTag [], false⟩)
      ⟨none⟩).err = noErr := by
  refine ⟨by decide, by decide, by decide⟩

/-- Claim C7: when the Gestalt query fails, `createShortcutMovieFile`
returns that error unchanged, touches nothing (no native call, no writer
stage), while an older version (upper 16 bits below 0x0400) instead
proceeds into the manual path, whose first writer stage is the removal
step: callers can distinguish the two outcomes. -/
theorem C7_gestalt_failure (native : FS → Int × FS) (orc : Oracle)
    (tag : Nat) (bytes : List Nat) (fs : FS) (e : Int) :
    createShortcutMovieFile native (GestaltOutcome.fail e) orc tag bytes fs
      = ⟨e, fs, false, []⟩ ∧
    (∀ v, (v / 65536) % 65536 < 0x0400 →
      (createShortcutMovieFile native (GestaltOutcome.ok v) orc tag bytes
        fs).performed.head? = some Stage.remove) := by
  constructor
  · rfl
  · intro v hv
    have hlt : ¬ (v / 65536) % 65536 ≥ 0x0400 := by omega
    obtain ⟨rest, hsh⟩ := writeHandle_performed_shape orc
      ⟨buildMoovAtom tag bytes, false⟩ fs
      (by show ¬ (buildMoovAtom tag bytes).length = 0
          rw [buildMoovAtom_length]; omega)
    simp [createShortcutMovieFile, hlt, hsh]

theorem C7_gestalt_failure_witness :
    createShortcutMovieFile (fun s => (0, s)) (GestaltOutcome.fail (-5550))
      (fun _ => none) 0 [] ⟨none⟩ = ⟨-5550, ⟨none⟩, false, []⟩ ∧
    (createShortcutMovieFile (fun s => (0, s)) (GestaltOutcome.ok 0)
      (fun _ => none) 0 [] ⟨none⟩).performed.head? = some Stage.remove := by
  have h := C7_gestalt_failure (fun s => (0, s)) (fun _ => none) 0 [] ⟨none⟩ (-5550)
  exact ⟨h.1, h.2 0 (by norm_num)⟩

/-- Claim C9: a NULL handle or a zero-length handle makes the writer bail
out with `paramErr` before any filesystem stage runs, leaving the target
untouched; and the builder itself never produces such a handle, its
output being at least 28 bytes. -/
theorem C9_param_guard (orc : Oracle) (fs : FS) :
    writeHandleToFile orc none fs = ⟨paramErr, fs, none, []⟩ ∧
    (∀ h : HState, h.contents = [] →
      writeHandleToFile orc (some h) fs = ⟨paramErr, fs, some (hUnlock h), []⟩) ∧
    (∀ tag bytes, 28 ≤ (buildMoovAtom tag bytes).length) := by
  refine ⟨rfl, ?_, ?_⟩
  · intro h hc
    simp [writeHandleToFile, hc]
  · intro tag bytes
    rw [buildMoovAtom_length]; omega

theorem C9_param_guard_witness :
    writeHandleToFile (fun _ => none) (some ⟨[], true⟩) ⟨some [1]⟩
      = ⟨paramErr, ⟨some [1]⟩, some ⟨[], false⟩, []⟩ := by
  have h := (C9_param_guard (fun _ => none) ⟨some [1]⟩).2.1 ⟨[], true⟩ rfl
  simpa [hUnlock] using h

/-- Claim C10: the writer never modifies the bytes of the handle it is
given: on every path (NULL bail-out, empty bail-out, any fault, success)
the returned handle state carries the same contents as the input handle;
the writer only reads the buffer (and toggles the Memory Manager lock). -/
theorem C10_handle_preserved (orc : Oracle) (theHandle : Option HState) (fs : FS) :
    (writeHandleToFile orc theHandle fs).hdl.map HState.contents
      = theHandle.map HState.contents := by
  rcases theHandle with _ | h
  · rfl
  · simp only [writeHandleToFile]
    split
    · simp [hUnlock]
    · repeat' split
      all_goals simp [hUnlock, hLock]

end QTShortcut

namespace QTShortcut

/-- Claim C2: on success of the writer the target file contains exactly
the bytes of the supplied handle, no more and no less; in particular a
successful second write of a shorter buffer over a target that previously
received a longer one leaves exactly the shorter buffer, with no residual
trailing bytes. -/
theorem C2_durable_writer_exact (orc orc2 : Oracle) (hA hB : HState) (fs : FS)
    (horc : ∀ s e, orc s = some e → e ≠ 0)
    (horc2 : ∀ s e, orc2 s = some e → e ≠ 0) :
    ((writeHandleToFile orc (some hA) fs).err = noErr →
      (writeHandleToFile orc (some hA) fs).fs = ⟨some hA.contents⟩) ∧
    (hB.contents.length < hA.contents.length →
      (writeHandleToFile orc2 (some hB)
          (writeHandleToFile orc (some hA) fs).fs).err = noErr →
      (writeHandleToFile orc2 (some hB)
          (writeHandleToFile orc (some hA) fs).fs).fs = ⟨some hB.contents⟩) :=
  ⟨fun hs => writeHandle_success_file orc hA fs horc hs,
   fun _ hs => writeHandle_success_file orc2 hB _ horc2 hs⟩

theorem C2_durable_writer_exact_witness :
    (writeHandleToFile (fun _ => none) (some ⟨[7], false⟩)
      (writeHandleToFile (fun _ => none) (some ⟨[1, 2, 3, 4, 5], false⟩)
        ⟨none⟩).fs).fs = ⟨some [7]⟩ := by
  refine (C2_durable_writer_exact (fun _ => none) (fun _ => none)
    ⟨[1, 2, 3, 4, 5], false⟩ ⟨[7], false⟩ ⟨none⟩ ?_ ?_).2 (by decide) (by decide)
  · intro s e hx; exact Option.noConfusion hx
  · intro s e hx; exact Option.noConfusion hx

/-- Claim C4 counterexample: with the target present and the removal step
failing with OSErr -45 (`fLckdErr`), the writer neither aborts nor reports
-45: it carries on into `FSpCreate`, whose `dupFNErr` (-48) is what the
caller receives — so a non-absence removal failure is ignored, not
reported. -/
theorem C4_removal_counterexample :
    (writeHandleToFile (fun s => if s = Stage.remove then some (-45) else none)
      (some ⟨[9], false⟩) ⟨some [7]⟩).err = dupFNErr ∧
    (writeHandleToFile (fun s => if s = Stage.remove then some (-45) else none)
      (some ⟨[9], false⟩) ⟨some [7]⟩).err ≠ -45 ∧
    (writeHandleToFile (fun s => if s = Stage.remove then some (-45) else none)
      (some ⟨[9], false⟩) ⟨some [7]⟩).performed
      = [Stage.remove, Stage.create] := by decide

/-- Claim C4 amended: absence of a prior file is indeed normalized to
success, but every failure of the removal step is ignored: its error code
is unconditionally overwritten and the writer proceeds to the create
step regardless (a removal failure can surface only indirectly through a
later stage's own error). -/
theorem C4_removal_amended (orc : Oracle) (h : HState) (fs : FS) :
    (fs.file = none → (∀ s, orc s = none) → ¬ h.contents.length = 0 →
      (writeHandleToFile orc (some h) fs).err = noErr ∧
      (writeHandleToFile orc (some h) fs).fs = ⟨some h.contents⟩) ∧
    (∀ e, orc Stage.remove = some e → ¬ h.contents.length = 0 →
      Stage.create ∈ (writeHandleToFile orc (some h) fs).performed) := by
  constructor
  · intro _ hAll h0
    rw [writeHandle_all_ok orc h fs h0 hAll]
    exact ⟨rfl, rfl⟩
  · intro e hre h0
    obtain ⟨rest, hsh⟩ := writeHandle_performed_shape orc h fs h0
    rw [hsh]
    simp

theorem C4_removal_amended_witness :
    (writeHandleToFile (fun _ => none) (some ⟨[5], false⟩) ⟨none⟩).err = noErr ∧
    Stage.create ∈ (writeHandleToFile
      (fun s => if s = Stage.remove then some (-61) else none)
      (some ⟨[5], false⟩) ⟨none⟩).performed := by
  refine ⟨((C4_removal_amended (fun _ => none) ⟨[5], false⟩ ⟨none⟩).1 rfl
      (fun s => rfl) (by decide)).1,
    (C4_removal_amended (fun s => if s = Stage.remove then some (-61) else none)
      ⟨[5], false⟩ ⟨none⟩).2 (-61) (by decide) (by decide)⟩

/-- Claim C8 counterexample: the removal step reports OSErr -54, yet the
writer performs the next filesystem operation anyway (`FSpCreate` appears
in the trace after the failed removal) and returns a different error, so
"the first failing step aborts all remaining steps" is false for the
removal step. -/
theorem C8_sequence_counterexample :
    (fun s => if s = Stage.remove then some (-54 : Int) else none) Stage.remove
      = some (-54) ∧
    Stage.create ∈ (writeHandleToFile
      (fun s => if s = Stage.remove then some (-54 : Int) else none)
      (some ⟨[9, 9], false⟩) ⟨some [3, 1, 4]⟩).performed ∧
    (writeHandleToFile
      (fun s => if s = Stage.remove then some (-54 : Int) else none)
      (some ⟨[9, 9], false⟩) ⟨some [3, 1, 4]⟩).err ≠ -54 := by decide

/-- Claim C8 amended: for every stage after the removal step (create,
open, position, write, position, resize, close), the first failing step
aborts all remaining steps and its error is returned to the caller; the
removal step's own failure never aborts the sequence (its error is
discarded), and when no step fails the writer runs all eight stages and
returns `noErr`. -/
theorem C8_sequence_amended (orc : Oracle) (h : HState) (fs : FS) (e : Int)
    (he : e ≠ 0) (hr : orc Stage.remove = none)
    (h0 : ¬ h.contents.length = 0) :
    (orc Stage.create = some e →
      (writeHandleToFile orc (some h) fs).err = e ∧
      (writeHandleToFile orc (some h) fs).performed
        = [Stage.remove, Stage.create]) ∧
    (orc Stage.create = none → orc Stage.openDF = some e →
      (writeHandleToFile orc (some h) fs).err = e ∧
      (writeHandleToFile orc (some h) fs).performed
        = [Stage.remove, Stage.create, Stage.openDF]) ∧
    (orc Stage.create = none → orc Stage.openDF = none →
      orc Stage.setPosStart = some e →
      (writeHandleToFile orc (some h) fs).err = e ∧
      (writeHandleToFile orc (some h) fs).performed
        = [Stage.remove, Stage.create, Stage.openDF, Stage.setPosStart]) ∧
    (orc Stage.create = none → orc Stage.openDF = none →
      orc Stage.setPosStart = none → orc Stage.write = some e →
      (writeHandleToFile orc (some h) fs).err = e ∧
      (writeHandleToFile orc (some h) fs).performed
        = [Stage.remove, Stage.create, Stage.openDF, Stage.setPosStart,
            Stage.write]) ∧
    (orc Stage.create = none → orc Stage.openDF = none →
      orc Stage.setPosStart = none → orc Stage.write = none →
      orc Stage.setPosEnd = some e →
      (writeHandleToFile orc (some h) fs).err = e ∧
      (writeHandleToFile orc (some h) fs).performed
        = [Stage.remove, Stage.create, Stage.openDF, Stage.setPosStart,
            Stage.write, Stage.setPosEnd]) ∧
    (orc Stage.create = none → orc Stage.openDF = none →
      orc Stage.setPosStart = none → orc Stage.write = none →
      orc Stage.setPosEnd = none → orc Stage.setEOF = some e →
      (writeHandleToFile orc (some h) fs).err = e ∧
      (writeHandleToFile orc (some h) fs).performed
        = [Stage.remove, Stage.create, Stage.openDF, Stage.setPosStart,
            Stage.write, Stage.setPosEnd, Stage.setEOF]) ∧
    (orc Stage.create = none → orc Stage.openDF = none →
      orc Stage.setPosStart = none → orc Stage.write = none →
      orc Stage.setPosEnd = none → orc Stage.setEOF = none →
      orc Stage.close = some e →
      (writeHandleToFile orc (some h) fs).err = e ∧
      (writeHandleToFile orc (some h) fs).performed = allStages) ∧
    ((∀ s, orc s = none) →
      (writeHandleToFile orc (some h) fs).err = noErr ∧
      (writeHandleToFile orc (some h) fs).performed = allStages) := by
  have hD := fspDelete_noFault orc fs hr
  refine ⟨?_, ?_, ?_, ?_, ?_, ?_, ?_, ?_⟩
  · intro hc
    constructor <;>
      simp [writeHandleToFile, h0, hD, fspCreate, hc, he, noErr]
  · intro hc ho
    constructor <;>
      simp [writeHandleToFile, h0, hD, fspCreate, hc, fspOpenDF, ho, he, noErr]
  · intro hc ho hp
    constructor <;>
      simp [writeHandleToFile, h0, hD, fspCreate, hc, fspOpenDF, ho, setFPos,
        hp, he, noErr]
  · intro hc ho hp hw
    constructor <;>
      simp [writeHandleToFile, h0, hD, fspCreate, hc, fspOpenDF, ho, setFPos,
        hp, fsWrite, hw, he, noErr]
  · intro hc ho hp hw hp2
    constructor <;>
      simp [writeHandleToFile, h0, hD, fspCreate, hc, fspOpenDF, ho, setFPos,
        hp, fsWrite, hw, hp2, he, noErr]
  · intro hc ho hp hw hp2 hse
    constructor <;>
      simp [writeHandleToFile, h0, hD, fspCreate, hc, fspOpenDF, ho, setFPos,
        hp, fsWrite, hw, hp2, setEOF, hse, he, noErr]
  · intro hc ho hp hw hp2 hse hcl
    constructor <;>
      simp [writeHandleToFile, h0, hD, fspCreate, hc, fspOpenDF, ho, setFPos,
        hp, fsWrite, hw, hp2, setEOF, hse, fsClose, hcl, he, noErr, allStages]
  · intro hAll
    rw [writeHandle_all_ok orc h fs h0 hAll]
    exact ⟨rfl, rfl⟩

theorem C8_sequence_amended_witness :
    (writeHandleToFile (fun s => if s = Stage.write then some (-34 : Int) else none)
      (some ⟨[8, 8], false⟩) ⟨some [1]⟩).err = -34 ∧
    (writeHandleToFile (fun s => if s = Stage.write then some (-34 : Int) else none)
      (some ⟨[8, 8], false⟩) ⟨some [1]⟩).performed
      = [Stage.remove, Stage.create, Stage.openDF, Stage.setPosStart,
          Stage.write] := by
  have h := C8_sequence_amended
    (fun s => if s = Stage.write then some (-34 : Int) else none)
    ⟨[8, 8], false⟩ ⟨some [1]⟩ (-34) (by decide) (by decide) (by decide)
  exact h.2.2.2.1 (by decide) (by decide) (by decide) (by decide)

end QTShortcut
